import Mathlib

/-!
# Verification of the GamePlay UI `Control` framework

Shallow embedding of the `gameplay::Control` UI widget base class
(src/gameplay/src/Control.h) and of the behaviour its specification
describes.  The repository ships only the class header (declarations);
the member-function bodies (Control.cpp, the layout strategies) are not
under src/, so the behavioural definitions below are modelled from the
spec, each marked `Modelled from the spec:` in its doc comment.  The
enumerant values, field layout and signatures come from the header.
-/

namespace GamePlay

/-- The four control states, from `Control::State` in Control.h
(NORMAL = 0x01, FOCUS = 0x02, ACTIVE = 0x04, DISABLED = 0x08). -/
inductive CState where
  | NORMAL
  | FOCUS
  | ACTIVE
  | DISABLED
deriving DecidableEq, Repr

/-- The bit value of a state, as declared in Control.h. -/
def CState.bit : CState → Nat
  | .NORMAL => 0x01
  | .FOCUS => 0x02
  | .ACTIVE => 0x04
  | .DISABLED => 0x08

/-- `Control::STATE_ALL = NORMAL | FOCUS | ACTIVE | DISABLED` (Control.h). -/
def STATE_ALL : Nat := CState.bit .NORMAL ||| CState.bit .FOCUS ||| CState.bit .ACTIVE ||| CState.bit .DISABLED

/-- A rectangle (gameplay::Rectangle): x, y, width, height.  Machine floats
are modelled as rationals. -/
structure Rect where
  x : ℚ
  y : ℚ
  width : ℚ
  height : ℚ
deriving DecidableEq, Repr

/-- The empty rectangle, the neutral default for an absent texture region. -/
def Rect.empty : Rect := ⟨0, 0, 0, 0⟩

/-- A blend color (gameplay::Vector4 used as RGBA). -/
structure Color where
  r : ℚ
  g : ℚ
  b : ℚ
  a : ℚ
deriving DecidableEq, Repr

/-- Fully transparent color, the neutral default for an absent blend color. -/
def Color.transparent : Color := ⟨0, 0, 0, 0⟩

/-- A themed image (`Theme::ThemeImage`): a texture region and a blend color. -/
structure ThemeImage where
  region : Rect
  color : Color
deriving DecidableEq, Repr

/-- One per-state visual resource bundle (`Theme::Style::Overlay`): skin,
image list, cursor, font, colors.  Fonts are identified by id. -/
structure Overlay where
  skinRegion : Rect
  skinColor : Color
  textColor : Color
  fontId : Nat
  fontSize : Nat
  imageList : List (Nat × ThemeImage)
  cursor : Option ThemeImage
deriving DecidableEq, Repr

/-- A `Theme::Style`: exactly one Overlay per state (spec §3). -/
structure Style where
  normal : Overlay
  focus : Overlay
  active : Overlay
  disabled : Overlay
deriving DecidableEq, Repr

/-- The overlay of a style for a given state. -/
def Style.overlay (st : Style) : CState → Overlay
  | .NORMAL => st.normal
  | .FOCUS => st.focus
  | .ACTIVE => st.active
  | .DISABLED => st.disabled

/-- Apply an overlay update to every state whose bit is set in the mask,
mirroring how a setter taking a `states` bitmask touches the selected
per-state slots of a style. -/
def Style.applyMasked (mask : Nat) (f : Overlay → Overlay) (st : Style) : Style :=
  let s1 := if mask &&& CState.bit .NORMAL ≠ 0 then { st with normal := f st.normal } else st
  let s2 := if mask &&& CState.bit .FOCUS ≠ 0 then { s1 with focus := f s1.focus } else s1
  let s3 := if mask &&& CState.bit .ACTIVE ≠ 0 then { s2 with active := f s2.active } else s2
  if mask &&& CState.bit .DISABLED ≠ 0 then { s3 with disabled := f s3.disabled } else s3

/-- `Control::Listener::EventType` (Control.h): PRESS = 0x01, RELEASE = 0x02,
CLICK = 0x04, VALUE_CHANGED = 0x08, TEXT_CHANGED = 0x10. -/
inductive EventType where
  | PRESS
  | RELEASE
  | CLICK
  | VALUE_CHANGED
  | TEXT_CHANGED
deriving DecidableEq, Repr

/-- The flag value of an event type, as declared in Control.h. -/
def EventType.flag : EventType → Nat
  | .PRESS => 0x01
  | .RELEASE => 0x02
  | .CLICK => 0x04
  | .VALUE_CHANGED => 0x08
  | .TEXT_CHANGED => 0x10

/-- The listener registry (`_listeners`): one ordered list of listener
references per event type; listeners are identified by id.  Models
`std::map<Listener::EventType, std::list<Listener*>*>`. -/
structure Listeners where
  press : List Nat
  release : List Nat
  click : List Nat
  valueChanged : List Nat
  textChanged : List Nat
deriving DecidableEq, Repr

/-- The empty registry (a fresh control has no listeners). -/
def Listeners.empty : Listeners := ⟨[], [], [], [], []⟩

/-- The ordered list registered for one event type. -/
def Listeners.forType (L : Listeners) : EventType → List Nat
  | .PRESS => L.press
  | .RELEASE => L.release
  | .CLICK => L.click
  | .VALUE_CHANGED => L.valueChanged
  | .TEXT_CHANGED => L.textChanged

/-- Append one listener to one event type's ordered list
(`Control::addSpecificListener`). -/
def Listeners.addSpecific (L : Listeners) (l : Nat) : EventType → Listeners
  | .PRESS => { L with press := L.press ++ [l] }
  | .RELEASE => { L with release := L.release ++ [l] }
  | .CLICK => { L with click := L.click ++ [l] }
  | .VALUE_CHANGED => { L with valueChanged := L.valueChanged ++ [l] }
  | .TEXT_CHANGED => { L with textChanged := L.textChanged ++ [l] }

/-- The shallow embedding of a `gameplay::Control` object: the fields of
Control.h that the verified claims touch.  Styles live in a shared store
(`Nat → Style`); a control holds a non-owning style id plus an optional
private overridden copy (`_styleOverridden` / `overrideStyle`). -/
structure Control where
  state : CState
  bounds : Rect
  dirty : Bool
  consumeTouchEvents : Bool
  autoWidth : Bool
  autoHeight : Bool
  styleId : Nat
  overriddenStyle : Option Style
  listeners : Listeners
  opacity : ℚ
  zIndex : ℤ
deriving DecidableEq, Repr

/-- Modelled from the spec: a freshly constructed control — state defaults
to NORMAL, opacity to 1.0, z-index to 0, no listeners, no style override
(Control.cpp constructor is not under src/). -/
def Control.mkDefault (styleId : Nat) : Control :=
  { state := .NORMAL
    bounds := Rect.empty
    dirty := true
    consumeTouchEvents := true
    autoWidth := false
    autoHeight := false
    styleId := styleId
    overriddenStyle := none
    listeners := Listeners.empty
    opacity := 1
    zIndex := 0 }

/-- Modelled from the spec: `Control::setBounds` writes the desired-bounds
rectangle and marks the control dirty; it does not recompute absolute or
clip rectangles (spec §4.1; Control.cpp is not under src/). -/
def Control.setBounds (c : Control) (r : Rect) : Control :=
  { c with bounds := r, dirty := true }

/-- `Control::getBounds`: the desired-bounds rectangle (`_bounds`). -/
def Control.getBounds (c : Control) : Rect :=
  c.bounds

/-- Modelled from the spec: `Control::setState` switches the control to the
given state (Control.cpp is not under src/). -/
def Control.setState (c : Control) (s : CState) : Control :=
  { c with state := s }

/-- `Control::getState`: the control's current state. -/
def Control.getState (c : Control) : CState :=
  c.state

/-- Modelled from the spec: `Control::disable` puts the control into the
DISABLED state (Control.cpp is not under src/). -/
def Control.disable (c : Control) : Control :=
  c.setState .DISABLED

/-- Modelled from the spec: `Control::enable` makes the control enabled
again, returning it to the default NORMAL state (Control.cpp is not under
src/). -/
def Control.enable (c : Control) : Control :=
  c.setState .NORMAL

/-- Modelled from the spec: `Control::isEnabled` — a control is enabled
exactly when its state is not DISABLED (Control.cpp is not under src/). -/
def Control.isEnabled (c : Control) : Bool :=
  match c.state with
  | .DISABLED => false
  | _ => true

/-- Modelled from the spec: `Control::setOpacity` — opacity is a single
per-control float, not a per-state themed property, so the states bitmask
selects no per-state slot (spec §3; Control.cpp is not under src/). -/
def Control.setOpacity (c : Control) (opacity : ℚ) (_mask : Nat) : Control :=
  { c with opacity := opacity, dirty := true }

/-- Modelled from the spec: `Control::getOpacity` — returns the single
per-control `_opacity` float whatever state is requested (spec §3;
Control.cpp is not under src/). -/
def Control.getOpacity (c : Control) (_state : CState) : ℚ :=
  c.opacity

/-- Modelled from the spec: `Control::setZIndex` (Control.cpp not in src/). -/
def Control.setZIndex (c : Control) (z : ℤ) : Control :=
  { c with zIndex := z }

/-- `Control::getZIndex`: the single per-control signed z-index. -/
def Control.getZIndex (c : Control) : ℤ :=
  c.zIndex

/-- Animation property identifiers, with the values declared in Control.h:
`ANIMATE_POSITION = 1` through `ANIMATE_OPACITY = 7`. -/
def ANIMATE_POSITION : ℤ := 1

/-- `ANIMATE_POSITION_X = 2` (Control.h). -/
def ANIMATE_POSITION_X : ℤ := 2

/-- `ANIMATE_POSITION_Y = 3` (Control.h). -/
def ANIMATE_POSITION_Y : ℤ := 3

/-- `ANIMATE_SIZE = 4` (Control.h). -/
def ANIMATE_SIZE : ℤ := 4

/-- `ANIMATE_SIZE_WIDTH = 5` (Control.h). -/
def ANIMATE_SIZE_WIDTH : ℤ := 5

/-- `ANIMATE_SIZE_HEIGHT = 6` (Control.h). -/
def ANIMATE_SIZE_HEIGHT : ℤ := 6

/-- `ANIMATE_OPACITY = 7` (Control.h). -/
def ANIMATE_OPACITY : ℤ := 7

/-- Outcome of an animation-channel call: a result, or a contract violation
(unknown property identifier — fatal assert in debug builds, no-op in
release builds; never a recoverable error). -/
inductive AnimResult (α : Type) where
  | ok (val : α)
  | violation
deriving DecidableEq, Repr

/-- Modelled from the spec: `Control::getAnimationPropertyComponentCount` —
2 components for POSITION and SIZE, 1 for the single-axis properties and
OPACITY, contract violation outside the set (Control.cpp is not under
src/). -/
def Control.getAnimationPropertyComponentCount (pid : ℤ) : AnimResult Nat :=
  match pid with
  | 1 => .ok 2
  | 2 => .ok 1
  | 3 => .ok 1
  | 4 => .ok 2
  | 5 => .ok 1
  | 6 => .ok 1
  | 7 => .ok 1
  | _ => .violation

/-- Modelled from the spec: `Control::getAnimationPropertyValue` reads the
current value vector of the property — position and size live in the
desired-bounds rectangle, opacity in `_opacity` (Control.cpp is not under
src/). -/
def Control.getAnimationPropertyValue (c : Control) (pid : ℤ) : AnimResult (List ℚ) :=
  match pid with
  | 1 => .ok [c.bounds.x, c.bounds.y]
  | 2 => .ok [c.bounds.x]
  | 3 => .ok [c.bounds.y]
  | 4 => .ok [c.bounds.width, c.bounds.height]
  | 5 => .ok [c.bounds.width]
  | 6 => .ok [c.bounds.height]
  | 7 => .ok [c.opacity]
  | _ => .violation

/-- One blended component: the current value is interpolated toward the
supplied value by the blend weight (weight 1.0 = full replace). -/
def blend (cur v w : ℚ) : ℚ :=
  cur * (1 - w) + v * w

/-- Modelled from the spec: `Control::setAnimationPropertyValue` writes a
blended value — each component of the property becomes the linear
interpolation, weighted by `blendWeight`, between its current value and
the supplied component; unknown identifiers are a contract violation
(Control.cpp is not under src/). -/
def Control.setAnimationPropertyValue (c : Control) (pid : ℤ) (value : List ℚ) (w : ℚ) :
    AnimResult Control :=
  match pid with
  | 1 => .ok { c with bounds := { c.bounds with
      x := blend c.bounds.x (value.getD 0 0) w,
      y := blend c.bounds.y (value.getD 1 0) w } }
  | 2 => .ok { c with bounds := { c.bounds with x := blend c.bounds.x (value.getD 0 0) w } }
  | 3 => .ok { c with bounds := { c.bounds with y := blend c.bounds.y (value.getD 0 0) w } }
  | 4 => .ok { c with bounds := { c.bounds with
      width := blend c.bounds.width (value.getD 0 0) w,
      height := blend c.bounds.height (value.getD 1 0) w } }
  | 5 => .ok { c with bounds := { c.bounds with width := blend c.bounds.width (value.getD 0 0) w } }
  | 6 => .ok { c with bounds := { c.bounds with height := blend c.bounds.height (value.getD 0 0) w } }
  | 7 => .ok { c with opacity := blend c.opacity (value.getD 0 0) w }
  | _ => .violation

/-- `Touch::TouchEvent` kinds delivered to `Control::touchEvent`. -/
inductive TouchEvt where
  | TOUCH_PRESS
  | TOUCH_RELEASE
  | TOUCH_MOVE
deriving DecidableEq, Repr

/-- `Keyboard::KeyEvent` kinds delivered to `Control::keyEvent`. -/
inductive KeyEvt where
  | KEY_PRESS
  | KEY_RELEASE
  | KEY_CHAR
deriving DecidableEq, Repr

/-- Modelled from the spec: `Control::notifyListeners` synchronously invokes
every listener registered for exactly the given event type, in
registration order, before returning (Control.cpp is not under src/).
The returned list is the invocation sequence. -/
def Control.notifyListeners (c : Control) (t : EventType) : List Nat :=
  c.listeners.forType t

/-- Modelled from the spec: `Control::touchEvent` — DISABLED suppresses
input handling entirely as a hard gate checked before any event
processing: the event is not consumed, the control is unchanged and no
listener is notified.  The subtype-specific processing that runs on an
enabled control (press/release policy is owned by concrete widgets) is
the `sub` argument.  Result: (consumed, control after, listeners
notified, in order).  Control.cpp is not under src/. -/
def Control.touchEvent
    (sub : Control → TouchEvt → ℤ → ℤ → Nat → Bool × Control × List Nat)
    (c : Control) (evt : TouchEvt) (x y : ℤ) (contactIndex : Nat) :
    Bool × Control × List Nat :=
  if c.state = .DISABLED then (false, c, [])
  else sub c evt x y contactIndex

/-- Modelled from the spec: `Control::keyEvent` — the same DISABLED hard
gate; on a disabled control the handler has no effect and notifies no
listener, whatever the subtype-specific processing `sub` would do
(Control.cpp is not under src/). -/
def Control.keyEvent
    (sub : Control → KeyEvt → ℤ → Control × List Nat)
    (c : Control) (evt : KeyEvt) (key : ℤ) : Control × List Nat :=
  if c.state = .DISABLED then (c, [])
  else sub c evt key

/-- Modelled from the spec: the body of `Control::addListener` decomposes
the event bitmask bit by bit, in the fixed enum order, and registers the
listener once under each event type whose bit is set, appending it to
that type's ordered list (Control.cpp is not under src/). -/
def Listeners.addFlagged (eventFlags l : Nat) (L0 : Listeners) : Listeners :=
  let L1 := if eventFlags &&& EventType.flag .PRESS ≠ 0 then L0.addSpecific l .PRESS else L0
  let L2 := if eventFlags &&& EventType.flag .RELEASE ≠ 0 then L1.addSpecific l .RELEASE else L1
  let L3 := if eventFlags &&& EventType.flag .CLICK ≠ 0 then L2.addSpecific l .CLICK else L2
  let L4 := if eventFlags &&& EventType.flag .VALUE_CHANGED ≠ 0 then L3.addSpecific l .VALUE_CHANGED else L3
  if eventFlags &&& EventType.flag .TEXT_CHANGED ≠ 0 then L4.addSpecific l .TEXT_CHANGED else L4

/-- Modelled from the spec: `Control::addListener` registers the listener
under every event type present in the flags bitmask (Control.cpp is not
under src/). -/
def Control.addListener (c : Control) (l : Nat) (eventFlags : Nat) : Control :=
  { c with listeners := c.listeners.addFlagged eventFlags l }

/-- The style a control's themed getters read: the private overridden copy
when one exists, otherwise the shared style it references in the shared
style store. -/
def resolvedStyle (styles : Nat → Style) (c : Control) : Style :=
  c.overriddenStyle.getD (styles c.styleId)

/-- Modelled from the spec: `Control::overrideStyle` — the lazy
copy-on-write step: the first time a per-instance Style-derived setter
runs, the shared style is copied into a private per-control copy; later
calls reuse that copy (`_styleOverridden`; Control.cpp is not under
src/). -/
def Control.overrideStyle (styles : Nat → Style) (c : Control) : Control :=
  match c.overriddenStyle with
  | some _ => c
  | none => { c with overriddenStyle := some (styles c.styleId) }

/-- Modelled from the spec: `Control::setSkinColor` — first triggers the
copy-on-write, then writes the color into the override slot of every
state selected by the bitmask; the shared style store is returned
untouched (Control.cpp is not under src/). -/
def Control.setSkinColor (styles : Nat → Style) (c : Control) (color : Color) (states : Nat) :
    (Nat → Style) × Control :=
  let c1 := c.overrideStyle styles
  (styles, { c1 with overriddenStyle :=
      c1.overriddenStyle.map (Style.applyMasked states (fun o => { o with skinColor := color })) })

/-- `Control::getSkinColor` for a given state, resolved against the
overridden copy when present, else the shared style. -/
def Control.getSkinColor (styles : Nat → Style) (c : Control) (s : CState) : Color :=
  ((resolvedStyle styles c).overlay s).skinColor

/-- Modelled from the spec: `Control::setTextColor`, same copy-on-write
discipline as `setSkinColor` (Control.cpp is not under src/). -/
def Control.setTextColor (styles : Nat → Style) (c : Control) (color : Color) (states : Nat) :
    (Nat → Style) × Control :=
  let c1 := c.overrideStyle styles
  (styles, { c1 with overriddenStyle :=
      c1.overriddenStyle.map (Style.applyMasked states (fun o => { o with textColor := color })) })

/-- `Control::getTextColor` for a given state. -/
def Control.getTextColor (styles : Nat → Style) (c : Control) (s : CState) : Color :=
  ((resolvedStyle styles c).overlay s).textColor

/-- Modelled from the spec: `Control::setFont`, same copy-on-write
discipline as `setSkinColor`; fonts are identified by id (Control.cpp is
not under src/). -/
def Control.setFont (styles : Nat → Style) (c : Control) (fontId : Nat) (states : Nat) :
    (Nat → Style) × Control :=
  let c1 := c.overrideStyle styles
  (styles, { c1 with overriddenStyle :=
      c1.overriddenStyle.map (Style.applyMasked states (fun o => { o with fontId := fontId })) })

/-- `Control::getFont` for a given state. -/
def Control.getFont (styles : Nat → Style) (c : Control) (s : CState) : Nat :=
  ((resolvedStyle styles c).overlay s).fontId

/-- Modelled from the spec: `Control::getImage` — a themed image looked up
by id for a given state; when the image list of that state does not
define the id, the lookup resolves to the NORMAL-state image list
(spec §7 resource-absence; Control.cpp is not under src/). -/
def Control.getImage (styles : Nat → Style) (c : Control) (id : Nat) (state : CState) :
    Option ThemeImage :=
  let st := resolvedStyle styles c
  match List.lookup id (st.overlay state).imageList with
  | some img => some img
  | none => List.lookup id (st.overlay .NORMAL).imageList

/-- Modelled from the spec: `Control::getImageRegion` — always a defined
rectangle: the resolved image's region, or the empty region when the id
is defined for no state (Control.cpp is not under src/). -/
def Control.getImageRegion (styles : Nat → Style) (c : Control) (id : Nat) (state : CState) :
    Rect :=
  match c.getImage styles id state with
  | some img => img.region
  | none => Rect.empty

/-- Modelled from the spec: `Control::getImageColor` — always a defined
color: the resolved image's blend color, or fully transparent
(Control.cpp is not under src/). -/
def Control.getImageColor (styles : Nat → Style) (c : Control) (id : Nat) (state : CState) :
    Color :=
  match c.getImage styles id state with
  | some img => img.color
  | none => Color.transparent

/-- Modelled from the spec: cursor resolution for a state, falling back to
the NORMAL-state cursor when undefined (Control.cpp is not under src/). -/
def Control.getCursor (styles : Nat → Style) (c : Control) (state : CState) :
    Option ThemeImage :=
  let st := resolvedStyle styles c
  match (st.overlay state).cursor with
  | some cur => some cur
  | none => (st.overlay .NORMAL).cursor

/-- Modelled from the spec: `Control::getCursorRegion` — always a defined
rectangle, empty when no state defines a cursor (Control.cpp is not
under src/). -/
def Control.getCursorRegion (styles : Nat → Style) (c : Control) (state : CState) : Rect :=
  match c.getCursor styles state with
  | some cur => cur.region
  | none => Rect.empty

/-- Modelled from the spec: `Control::getCursorColor` — always a defined
color, fully transparent when no state defines a cursor (Control.cpp is
not under src/). -/
def Control.getCursorColor (styles : Nat → Style) (c : Control) (state : CState) : Color :=
  match c.getCursor styles state with
  | some cur => cur.color
  | none => Color.transparent

/-- A child as the vertical layout sees it: a height and vertical margins. -/
structure LChild where
  height : ℚ
  marginTop : ℚ
  marginBottom : ℚ
deriving DecidableEq, Repr

/-- The vertical space one child occupies: its height plus its margins. -/
def LChild.advance (c : LChild) : ℚ :=
  c.marginTop + c.height + c.marginBottom

/-- Modelled from the spec: `VerticalLayout::update` stacks children
top-to-bottom in list order with a running y position — each child's
vertical offset is the sum of the preceding siblings' heights plus their
margins (spec §4.3; VerticalLayout.cpp is not under src/). -/
def verticalOffsetsFrom (y : ℚ) : List LChild → List ℚ
  | [] => []
  | c :: rest => y :: verticalOffsetsFrom (y + c.advance) rest

/-- The vertical offsets of a container's children, first child at 0. -/
def verticalOffsets (cs : List LChild) : List ℚ :=
  verticalOffsetsFrom 0 cs

/-- Modelled from the spec: the total content height of a vertical layout,
the sum of every child's height plus margins (VerticalLayout.cpp is not
under src/). -/
def totalContentHeight (cs : List LChild) : ℚ :=
  (cs.map LChild.advance).sum

/-- A vertical-layout container: width, explicit height, auto-height flag
and the ordered children. -/
structure VContainer where
  width : ℚ
  height : ℚ
  autoHeight : Bool
  children : List LChild
deriving DecidableEq, Repr

/-- Modelled from the spec: after a vertical layout pass, a container with
auto-height enabled takes the total content height; otherwise it keeps
its explicit height (spec §4.2; Container.cpp is not under src/). -/
def VContainer.layoutHeight (v : VContainer) : ℚ :=
  if v.autoHeight then totalContentHeight v.children else v.height

/-- A shared demo style whose four overlays carry the original themed
values used by the copy-on-write witness. -/
def demoOverlay : Overlay :=
  { skinRegion := ⟨0, 0, 10, 10⟩
    skinColor := ⟨1, 0, 0, 1⟩
    textColor := ⟨0, 0, 0, 1⟩
    fontId := 3
    fontSize := 12
    imageList := []
    cursor := none }

/-- The shared demo style: the same overlay for all four states. -/
def demoStyle : Style :=
  { normal := demoOverlay, focus := demoOverlay
    active := demoOverlay, disabled := demoOverlay }

/-- A themed image used by the resolution witness. -/
def demoImg : ThemeImage := ⟨⟨1, 2, 3, 4⟩, ⟨0, 0, 1, 1⟩⟩

/-- A themed cursor used by the resolution witness. -/
def demoCur : ThemeImage := ⟨⟨7, 8, 9, 10⟩, ⟨1, 1, 1, 1⟩⟩

/-- An overlay defining image 5 and a cursor, used as NORMAL state. -/
def demoOverlayFull : Overlay :=
  { demoOverlay with imageList := [(5, demoImg)], cursor := some demoCur }

/-- A style whose NORMAL overlay defines image 5 and a cursor while the
other states define neither. -/
def demoStyleR : Style :=
  { normal := demoOverlayFull, focus := demoOverlay
    active := demoOverlay, disabled := demoOverlay }

end GamePlay

namespace GamePlay

/-- C7: setBounds followed by getBounds returns the rectangle that was set,
before any layout pass runs. -/
theorem setBounds_getBounds_roundtrip (c : Control) (r : Rect) :
    (c.setBounds r).getBounds = r := by
  rfl

/-- C10: `isEnabled` is true exactly when the state is not DISABLED;
`disable` enters the DISABLED state and `enable` leaves it. -/
theorem isEnabled_iff_not_disabled (c : Control) :
    (c.isEnabled = true ↔ c.getState ≠ .DISABLED) ∧
    c.disable.isEnabled = false ∧
    c.disable.getState = .DISABLED ∧
    c.enable.isEnabled = true := by
  refine ⟨?_, rfl, rfl, rfl⟩
  cases h : c.state <;>
    simp [Control.isEnabled, Control.getState, h]

/-- C3: `getOpacity` ignores the requested state — opacity is one
per-control float, defaulting to 1.0 and surviving `setOpacity` with any
states mask; z-index is one per-control signed integer defaulting to 0. -/
theorem getOpacity_state_independent (c : Control) (s1 s2 : CState)
    (v : ℚ) (mask : Nat) (sid : Nat) :
    c.getOpacity s1 = c.getOpacity s2 ∧
    (c.setOpacity v mask).getOpacity s1 = v ∧
    (Control.mkDefault sid).getOpacity s1 = 1 ∧
    (Control.mkDefault sid).getZIndex = 0 := by
  exact ⟨rfl, rfl, rfl, rfl⟩

/-- C4: the animation component count is 2 for POSITION and SIZE, 1 for
POSITION_X, POSITION_Y, SIZE_WIDTH, SIZE_HEIGHT and OPACITY, and a
contract violation for every identifier outside that set. -/
theorem animationComponentCount_spec :
    Control.getAnimationPropertyComponentCount ANIMATE_POSITION = .ok 2 ∧
    Control.getAnimationPropertyComponentCount ANIMATE_SIZE = .ok 2 ∧
    Control.getAnimationPropertyComponentCount ANIMATE_POSITION_X = .ok 1 ∧
    Control.getAnimationPropertyComponentCount ANIMATE_POSITION_Y = .ok 1 ∧
    Control.getAnimationPropertyComponentCount ANIMATE_SIZE_WIDTH = .ok 1 ∧
    Control.getAnimationPropertyComponentCount ANIMATE_SIZE_HEIGHT = .ok 1 ∧
    Control.getAnimationPropertyComponentCount ANIMATE_OPACITY = .ok 1 ∧
    ∀ pid : ℤ, (pid < 1 ∨ 7 < pid) →
      Control.getAnimationPropertyComponentCount pid = .violation := by
  refine ⟨rfl, rfl, rfl, rfl, rfl, rfl, rfl, ?_⟩
  intro pid h
  unfold Control.getAnimationPropertyComponentCount
  split <;> first | rfl | omega

/-- Witness for C4: a concrete out-of-range identifier is a contract
violation. -/
theorem animationComponentCount_spec_witness :
    Control.getAnimationPropertyComponentCount 42 = .violation :=
  animationComponentCount_spec.2.2.2.2.2.2.2 42 (by norm_num)

/-- C5: `setAnimationPropertyValue` with blend weight `w` in [0, 1] sets
each component to the linear interpolation (1-w)·current + w·supplied,
so weight 1.0 fully replaces the current value. -/
theorem setAnimationPropertyValue_lerp (c : Control) (w vx vy : ℚ)
    (h0 : 0 ≤ w) (h1 : w ≤ 1) :
    c.setAnimationPropertyValue ANIMATE_OPACITY [vx] w =
      .ok { c with opacity := (1 - w) * c.opacity + w * vx } ∧
    c.setAnimationPropertyValue ANIMATE_POSITION [vx, vy] w =
      .ok { c with bounds := { c.bounds with
        x := (1 - w) * c.bounds.x + w * vx,
        y := (1 - w) * c.bounds.y + w * vy } } ∧
    c.setAnimationPropertyValue ANIMATE_OPACITY [vx] 1 = .ok { c with opacity := vx } := by
  refine ⟨?_, ?_, ?_⟩
  · simp [Control.setAnimationPropertyValue, blend, ANIMATE_OPACITY]
    ring
  · simp [Control.setAnimationPropertyValue, blend, ANIMATE_POSITION]
    constructor <;> ring
  · simp [Control.setAnimationPropertyValue, blend, ANIMATE_OPACITY]

/-- Witness for C5: on a control with current opacity 1.0, setting OPACITY
to 0.0 with blend weight 1.0 yields opacity 0.0, and with blend weight
0.5 yields 0.5; `getAnimationPropertyValue` then reads the blended
values back. -/
theorem setAnimationPropertyValue_lerp_witness :
    (Control.mkDefault 0).setAnimationPropertyValue ANIMATE_OPACITY [0] 1 =
      .ok { Control.mkDefault 0 with opacity := 0 } ∧
    (Control.mkDefault 0).setAnimationPropertyValue ANIMATE_OPACITY [0] (1/2) =
      .ok { Control.mkDefault 0 with opacity := 1/2 } ∧
    ({ Control.mkDefault 0 with opacity := 0 } : Control).getAnimationPropertyValue
      ANIMATE_OPACITY = .ok [0] ∧
    ({ Control.mkDefault 0 with opacity := 1/2 } : Control).getAnimationPropertyValue
      ANIMATE_OPACITY = .ok [1/2] := by
  have hfull := (setAnimationPropertyValue_lerp (Control.mkDefault 0) 1 0 0
    (by norm_num) (by norm_num)).1
  have hhalf := (setAnimationPropertyValue_lerp (Control.mkDefault 0) (1/2) 0 0
    (by norm_num) (by norm_num)).1
  norm_num [Control.mkDefault] at hfull hhalf
  exact ⟨hfull, hhalf, rfl, rfl⟩

/-- C2: on a control in the DISABLED state every touch event is not
consumed, the key handler has no effect, and no listener is notified —
whatever the event payload and whatever the subtype-specific processing
would do on an enabled control. -/
theorem disabled_suppresses_input
    (subT : Control → TouchEvt → ℤ → ℤ → Nat → Bool × Control × List Nat)
    (subK : Control → KeyEvt → ℤ → Control × List Nat)
    (c : Control) (evt : TouchEvt) (x y : ℤ) (ci : Nat) (kevt : KeyEvt) (key : ℤ)
    (h : c.state = .DISABLED) :
    Control.touchEvent subT c evt x y ci = (false, c, []) ∧
    Control.keyEvent subK c kevt key = (c, []) := by
  constructor <;> simp [Control.touchEvent, Control.keyEvent, h]

/-- Witness for C2: a disabled control ignores a touch press and a key
press even under a subtype handler that would consume the event, mutate
the control and notify listener 99. -/
theorem disabled_suppresses_input_witness :
    Control.touchEvent (fun c _ _ _ _ => (true, { c with state := .ACTIVE }, [99]))
      ((Control.mkDefault 0).disable) .TOUCH_PRESS 5 7 0 =
      (false, (Control.mkDefault 0).disable, []) ∧
    Control.keyEvent (fun c _ _ => ({ c with state := .FOCUS }, [99]))
      ((Control.mkDefault 0).disable) .KEY_PRESS 87 =
      ((Control.mkDefault 0).disable, []) :=
  disabled_suppresses_input _ _ _ _ _ _ _ _ _ rfl

/-- Helper: `addSpecific` touches exactly the list of the event type it
registers under. -/
theorem addSpecific_forType (L : Listeners) (l : Nat) (t u : EventType) :
    (L.addSpecific l t).forType u =
      (if u = t then L.forType u ++ [l] else L.forType u) := by
  cases t <;> cases u <;> simp [Listeners.addSpecific, Listeners.forType]

/-- Helper: reading one event type's list distributes over a conditional
registry. -/
theorem ite_forType (c : Prop) [Decidable c] (a b : Listeners) (u : EventType) :
    (if c then a else b).forType u = (if c then a.forType u else b.forType u) :=
  apply_ite (fun L => Listeners.forType L u) c a b

/-- C6: `addListener` appends the listener to the ordered list of exactly
the event types whose bit is set in the flags, leaving the other lists
unchanged, and `notifyListeners` invokes exactly the listeners registered
for that event type in registration order. -/
theorem addListener_notifyListeners (c : Control) (l : Nat) (flags : Nat) (t : EventType) :
    (c.addListener l flags).listeners.forType t =
      (if flags &&& t.flag ≠ 0 then c.listeners.forType t ++ [l]
       else c.listeners.forType t) ∧
    (c.addListener l flags).notifyListeners t =
      (if flags &&& t.flag ≠ 0 then c.listeners.forType t ++ [l]
       else c.listeners.forType t) := by
  have hmain : (c.listeners.addFlagged flags l).forType t =
      (if flags &&& t.flag ≠ 0 then c.listeners.forType t ++ [l]
       else c.listeners.forType t) := by
    cases t <;>
      simp [Listeners.addFlagged, ite_forType, addSpecific_forType, EventType.flag]
  exact ⟨hmain, hmain⟩

/-- Helper: applying a setter with the STATE_ALL bitmask rewrites the
overlay of every one of the four states. -/
theorem applyMasked_all (f : Overlay → Overlay) (st : Style) (s : CState) :
    (Style.applyMasked STATE_ALL f st).overlay s = f (st.overlay s) := by
  cases s <;> simp [Style.applyMasked, STATE_ALL, CState.bit, Style.overlay]

/-- C1: a Style-derived setter called with STATE_ALL makes the getter
return the new value for each of the four states on that control, while
the shared style store is untouched and a sibling sharing the style (and
not overriding it) still reads the original shared values; the setter
leaves the control with a private overridden copy.  Stated for the three
representative setters setSkinColor, setTextColor and setFont. -/
theorem style_setters_copy_on_write (styles : Nat → Style) (a b : Control)
    (color tcolor : Color) (fid : Nat)
    (hid : a.styleId = b.styleId) (hb : b.overriddenStyle = none) :
    ((Control.setSkinColor styles a color STATE_ALL).1 = styles ∧
      (∀ s : CState,
        Control.getSkinColor styles (Control.setSkinColor styles a color STATE_ALL).2 s = color) ∧
      (∀ s : CState,
        Control.getSkinColor (Control.setSkinColor styles a color STATE_ALL).1 b s =
          ((styles a.styleId).overlay s).skinColor) ∧
      (Control.setSkinColor styles a color STATE_ALL).2.overriddenStyle.isSome = true) ∧
    ((Control.setTextColor styles a tcolor STATE_ALL).1 = styles ∧
      (∀ s : CState,
        Control.getTextColor styles (Control.setTextColor styles a tcolor STATE_ALL).2 s = tcolor) ∧
      (∀ s : CState,
        Control.getTextColor (Control.setTextColor styles a tcolor STATE_ALL).1 b s =
          ((styles a.styleId).overlay s).textColor) ∧
      (Control.setTextColor styles a tcolor STATE_ALL).2.overriddenStyle.isSome = true) ∧
    ((Control.setFont styles a fid STATE_ALL).1 = styles ∧
      (∀ s : CState,
        Control.getFont styles (Control.setFont styles a fid STATE_ALL).2 s = fid) ∧
      (∀ s : CState,
        Control.getFont (Control.setFont styles a fid STATE_ALL).1 b s =
          ((styles a.styleId).overlay s).fontId) ∧
      (Control.setFont styles a fid STATE_ALL).2.overriddenStyle.isSome = true) := by
  refine ⟨⟨rfl, ?_, ?_, ?_⟩, ⟨rfl, ?_, ?_, ?_⟩, ⟨rfl, ?_, ?_, ?_⟩⟩ <;>
    first
    | (intro s
       cases hao : a.overriddenStyle <;>
         simp [Control.setSkinColor, Control.setTextColor, Control.setFont,
           Control.getSkinColor, Control.getTextColor, Control.getFont,
           Control.overrideStyle, resolvedStyle, hao, hb, hid, applyMasked_all])
    | (cases hao : a.overriddenStyle <;>
         simp [Control.setSkinColor, Control.setTextColor, Control.setFont,
           Control.overrideStyle, hao])

/-- Witness for C1: two fresh controls share style 0; setting the skin
color on the first with STATE_ALL yields the new color on it for FOCUS,
leaves the store untouched, leaves the sibling reading the original red,
and creates a private copy. -/
theorem style_setters_copy_on_write_witness :
    (Control.setSkinColor (fun _ => demoStyle) (Control.mkDefault 0) ⟨0, 1, 0, 1⟩ STATE_ALL).1 =
      (fun _ => demoStyle) ∧
    Control.getSkinColor (fun _ => demoStyle)
      (Control.setSkinColor (fun _ => demoStyle) (Control.mkDefault 0) ⟨0, 1, 0, 1⟩ STATE_ALL).2
      .FOCUS = ⟨0, 1, 0, 1⟩ ∧
    Control.getSkinColor (fun _ => demoStyle) (Control.mkDefault 0) .FOCUS = ⟨1, 0, 0, 1⟩ ∧
    (Control.setSkinColor (fun _ => demoStyle) (Control.mkDefault 0) ⟨0, 1, 0, 1⟩
      STATE_ALL).2.overriddenStyle.isSome = true := by
  have h := style_setters_copy_on_write (fun _ => demoStyle)
    (Control.mkDefault 0) (Control.mkDefault 0) ⟨0, 1, 0, 1⟩ ⟨0, 0, 0, 1⟩ 3 rfl rfl
  exact ⟨h.1.1, h.1.2.1 .FOCUS, (h.1.2.2.1 .FOCUS).trans rfl, h.1.2.2.2⟩

/-- C9: the per-state image and cursor accessors always return a defined
value: the value defined for the requested state when present, else the
NORMAL-state value, else the neutral default (empty region, fully
transparent color) — never an error. -/
theorem image_cursor_resolution (styles : Nat → Style) (c : Control) (id : Nat)
    (state : CState) :
    (∀ img, List.lookup id ((resolvedStyle styles c).overlay state).imageList = some img →
      c.getImageRegion styles id state = img.region ∧
      c.getImageColor styles id state = img.color) ∧
    (List.lookup id ((resolvedStyle styles c).overlay state).imageList = none →
      ∀ img, List.lookup id ((resolvedStyle styles c).overlay .NORMAL).imageList = some img →
        c.getImageRegion styles id state = img.region ∧
        c.getImageColor styles id state = img.color) ∧
    (List.lookup id ((resolvedStyle styles c).overlay state).imageList = none →
      List.lookup id ((resolvedStyle styles c).overlay .NORMAL).imageList = none →
      c.getImageRegion styles id state = Rect.empty ∧
      c.getImageColor styles id state = Color.transparent) ∧
    (∀ cur, ((resolvedStyle styles c).overlay state).cursor = some cur →
      c.getCursorRegion styles state = cur.region ∧
      c.getCursorColor styles state = cur.color) ∧
    (((resolvedStyle styles c).overlay state).cursor = none →
      ∀ cur, ((resolvedStyle styles c).overlay .NORMAL).cursor = some cur →
        c.getCursorRegion styles state = cur.region ∧
        c.getCursorColor styles state = cur.color) ∧
    (((resolvedStyle styles c).overlay state).cursor = none →
      ((resolvedStyle styles c).overlay .NORMAL).cursor = none →
      c.getCursorRegion styles state = Rect.empty ∧
      c.getCursorColor styles state = Color.transparent) := by
  refine ⟨?_, ?_, ?_, ?_, ?_, ?_⟩
  · intro img h1
    constructor <;>
      simp [Control.getImageRegion, Control.getImageColor, Control.getImage, h1]
  · intro h1 img h2
    constructor <;>
      simp [Control.getImageRegion, Control.getImageColor, Control.getImage, h1, h2]
  · intro h1 h2
    constructor <;>
      simp [Control.getImageRegion, Control.getImageColor, Control.getImage, h1, h2]
  · intro cur h1
    constructor <;>
      simp [Control.getCursorRegion, Control.getCursorColor, Control.getCursor, h1]
  · intro h1 cur h2
    constructor <;>
      simp [Control.getCursorRegion, Control.getCursorColor, Control.getCursor, h1, h2]
  · intro h1 h2
    constructor <;>
      simp [Control.getCursorRegion, Control.getCursorColor, Control.getCursor, h1, h2]

/-- Witness for C9: requesting image 5 or the cursor for FOCUS (where they
are undefined) resolves to the NORMAL-state values; requesting the
undefined image 6 resolves to the neutral defaults. -/
theorem image_cursor_resolution_witness :
    (Control.mkDefault 1).getImageRegion (fun _ => demoStyleR) 5 .FOCUS = demoImg.region ∧
    (Control.mkDefault 1).getImageColor (fun _ => demoStyleR) 5 .FOCUS = demoImg.color ∧
    (Control.mkDefault 1).getImageRegion (fun _ => demoStyleR) 6 .FOCUS = Rect.empty ∧
    (Control.mkDefault 1).getImageColor (fun _ => demoStyleR) 6 .FOCUS = Color.transparent ∧
    (Control.mkDefault 1).getCursorRegion (fun _ => demoStyleR) .FOCUS = demoCur.region ∧
    (Control.mkDefault 1).getCursorColor (fun _ => demoStyleR) .FOCUS = demoCur.color := by
  have h5 := image_cursor_resolution (fun _ => demoStyleR) (Control.mkDefault 1) 5 .FOCUS
  have h6 := image_cursor_resolution (fun _ => demoStyleR) (Control.mkDefault 1) 6 .FOCUS
  exact ⟨(h5.2.1 rfl demoImg rfl).1, (h5.2.1 rfl demoImg rfl).2,
    (h6.2.2.1 rfl rfl).1, (h6.2.2.1 rfl rfl).2,
    (h5.2.2.2.2.1 rfl demoCur rfl).1, (h5.2.2.2.2.1 rfl demoCur rfl).2⟩

/-- Helper: the running-y vertical placement, started at y, puts child i at
y plus the advances of the preceding children. -/
theorem verticalOffsetsFrom_getElem (cs : List LChild) (y : ℚ) (i : Nat)
    (hi : i < cs.length) :
    (verticalOffsetsFrom y cs)[i]? = some (y + ((cs.take i).map LChild.advance).sum) := by
  induction cs generalizing y i with
  | nil => simp at hi
  | cons c rest ih =>
    cases i with
    | zero => simp [verticalOffsetsFrom]
    | succ n =>
      have hn : n < rest.length := by simpa using hi
      simp only [verticalOffsetsFrom, List.getElem?_cons_succ, ih (y + c.advance) n hn,
        List.take_succ_cons, List.map_cons, List.sum_cons]
      congr 1
      ring

/-- C8: in a vertical layout with zero margins, child i's vertical offset
is the sum of the heights of children 0..i-1, the total content height
is the sum of all heights, and an auto-height container takes that sum
as its height. -/
theorem vertical_layout_offsets (cs : List LChild)
    (hm : ∀ c ∈ cs, c.marginTop = 0 ∧ c.marginBottom = 0) :
    (∀ i, i < cs.length →
      (verticalOffsets cs)[i]? = some (((cs.take i).map LChild.height).sum)) ∧
    totalContentHeight cs = (cs.map LChild.height).sum ∧
    (∀ v : VContainer, v.children = cs → v.autoHeight = true →
      v.layoutHeight = (cs.map LChild.height).sum) := by
  have hadv : ∀ c ∈ cs, c.advance = c.height := by
    intro c hc
    have h := hm c hc
    simp [LChild.advance, h.1, h.2]
  have htot : totalContentHeight cs = (cs.map LChild.height).sum := by
    unfold totalContentHeight
    rw [List.map_congr_left hadv]
  refine ⟨?_, htot, ?_⟩
  · intro i hi
    rw [verticalOffsets, verticalOffsetsFrom_getElem cs 0 i hi, zero_add]
    congr 1
    exact congrArg List.sum (List.map_congr_left fun c hc => hadv c (List.take_subset i cs hc))
  · intro v hv hauto
    rw [VContainer.layoutHeight, hauto, if_pos rfl, hv, htot]

/-- Witness for C8: a width-200 container with three margin-free children
of height 50 places them at offsets 0, 50 and 100 and auto-sizes to
height 150. -/
theorem vertical_layout_offsets_witness :
    (verticalOffsets [⟨50, 0, 0⟩, ⟨50, 0, 0⟩, ⟨50, 0, 0⟩])[0]? = some 0 ∧
    (verticalOffsets [⟨50, 0, 0⟩, ⟨50, 0, 0⟩, ⟨50, 0, 0⟩])[1]? = some 50 ∧
    (verticalOffsets [⟨50, 0, 0⟩, ⟨50, 0, 0⟩, ⟨50, 0, 0⟩])[2]? = some 100 ∧
    VContainer.layoutHeight ⟨200, 0, true, [⟨50, 0, 0⟩, ⟨50, 0, 0⟩, ⟨50, 0, 0⟩]⟩ = 150 := by
  have h := vertical_layout_offsets [⟨50, 0, 0⟩, ⟨50, 0, 0⟩, ⟨50, 0, 0⟩]
    (by intro c hc; fin_cases hc <;> exact ⟨rfl, rfl⟩)
  refine ⟨?_, ?_, ?_, ?_⟩
  · have := h.1 0 (by norm_num)
    simpa using this
  · have := h.1 1 (by norm_num)
    norm_num at this
    simpa using this
  · have := h.1 2 (by norm_num)
    norm_num at this
    simpa using this
  · have := h.2.2 ⟨200, 0, true, [⟨50, 0, 0⟩, ⟨50, 0, 0⟩, ⟨50, 0, 0⟩]⟩ rfl rfl
    norm_num at this
    simpa using this

end GamePlay
